import Mathlib

/-!
Shallow embedding of the space-weather monitor and alerting daemon
(checker pipeline, alert evaluator, cooldown filter, notification dispatch,
state store, lock manager, prediction store and verifier), together with
proofs about the properties stated in the specification.

Modelling conventions:
* ISO-8601 timestamp strings are modelled by their epoch-millisecond value,
  an integer (`Date.getTime()` returns integer milliseconds); other
  JavaScript numbers are modelled by `ℚ`, except configuration constants
  that are integers in the source (cooldown minutes, cooldown/window hours).
* `Record<string, T>` objects are modelled by association lists.
* Alert `body` strings are elided (no verified property depends on them);
  `title` strings are kept because the prediction verifier copies them into
  matched-event descriptions.
-/

namespace SpaceWeather

/-- Alert urgency levels (`AlertUrgency` in src/lib/types.ts). -/
inductive AlertUrgency where
  | critical
  | high
  | moderate
  | info
deriving DecidableEq

/-- `SpaceWeatherAlert` from src/lib/types.ts (body text elided). -/
structure Alert where
  id : String
  type : String
  urgency : AlertUrgency
  title : String
  timestamp : ℤ
  sourceEventId : Option String
deriving DecidableEq

/-- `KnownCME` from src/lib/types.ts: stored CME forecast fields. -/
structure KnownCME where
  id : String
  predictedKp : Option ℚ
  predictedArrival : Option ℤ
deriving DecidableEq

/-- The fields of `CME` (src/lib/types.ts) read by the checker pipeline;
fields it never reads (sourceLocation, halfAngle, note, ...) are elided. -/
structure CME where
  id : String
  startTime : ℤ
  speed : Option ℚ
  predictedArrival : Option ℤ
  predictedKp : Option ℚ
deriving DecidableEq

/-- The fields of `SolarFlare` (src/lib/types.ts) read by the checker. -/
structure SolarFlare where
  id : String
  beginTime : ℤ
  classType : String
  activeRegionNum : Option ℚ
deriving DecidableEq

/-- `GeomagneticStorm` from src/lib/types.ts. -/
structure GeomagneticStorm where
  id : String
  startTime : ℤ
  kpIndex : ℚ
  gScale : String
deriving DecidableEq

/-- `HighSpeedStream` from src/lib/types.ts (instruments elided). -/
structure HighSpeedStream where
  id : String
  eventTime : ℤ
deriving DecidableEq

/-- The fields of `ActiveRegion` (src/lib/types.ts) read by the evaluator. -/
structure ActiveRegion where
  regionNumber : ℚ
  location : String
  magneticClass : Option String
  flareProb_M : ℚ
  flareProb_X : ℚ
deriving DecidableEq

/-- `SolarWind` from src/lib/types.ts. -/
structure SolarWind where
  timestamp : ℤ
  speed : ℚ
  density : ℚ
  temperature : ℚ
deriving DecidableEq

/-- `MagneticField` from src/lib/types.ts. -/
structure MagneticField where
  timestamp : ℤ
  bx : ℚ
  by' : ℚ
  bz : ℚ
  bt : ℚ
deriving DecidableEq

/-- `DataHealthEntry` from src/lib/types.ts. -/
structure DataHealthEntry where
  source : String
  ok : Bool
  lastSuccess : ℤ
  lastError : Option String
deriving DecidableEq

/-- `CheckerState` from src/lib/types.ts: the persisted checker state blob. -/
structure CheckerState where
  schemaVersion : ℚ
  lastRunAt : ℤ
  lastKp : ℚ
  lastBz : ℚ
  lastWindSpeed : ℚ
  lastWindDensity : ℚ
  kpWasAbove5 : Bool
  kpWasAbove7 : Bool
  bzWasBelow10 : Bool
  bzWasBelow15 : Bool
  windWasAbove600 : Bool
  windWasAbove700 : Bool
  densityWasAbove20 : Bool
  knownCMEs : List KnownCME
  knownFlareIds : List String
  knownHSSIds : List String
  knownRegionNumbers : List ℚ
  knownAlertProductIds : List String
  lastCooldowns : List (String × ℤ)
  dataHealth : List DataHealthEntry
  alertsSent : List Alert
deriving DecidableEq

/-- The fields of `SpaceWeatherSnapshot` (src/lib/types.ts) read by the
evaluator and the prediction verifier; the remaining fields (xrayFlux,
kpForecast24h, forecast text, ...) are elided. -/
structure Snapshot where
  kp : ℚ
  solarWind : Option SolarWind
  magneticField : Option MagneticField
  earthDirectedCMEs : List CME
  recentFlares : List SolarFlare
  recentStorms : List GeomagneticStorm
  recentHSS : List HighSpeedStream
deriving DecidableEq

/-! ### Configuration (src/scripts/config.ts) -/

namespace CONFIG

/-- `CONFIG.thresholds.cmeRevision.kpJump`. -/
def cmeRevisionKpJump : ℚ := 2

/-- `CONFIG.cooldowns`: alert type → cooldown minutes. -/
def cooldowns : List (String × ℤ) :=
  [ ("kp-threshold", 180)
  , ("kp-elevated", 360)
  , ("bz-threshold", 60)
  , ("wind-speed", 60)
  , ("wind-density", 120)
  , ("flare-m", 60)
  , ("flare-x", 0)
  , ("cme-earth", 0)
  , ("cme-revision", 60)
  , ("hss-arrival", 240)
  , ("active-region", 360)
  , ("all-clear", 60)
  , ("data-stale", 360) ]

/-- `CONFIG.channels`: urgency → ordered channel list. -/
def channels : AlertUrgency → List String
  | .critical => ["signal", "desktop"]
  | .high => ["signal", "desktop"]
  | .moderate => ["desktop"]
  | .info => ["desktop"]

/-- `CONFIG.activeRegionAlerts.enabled`. -/
def activeRegionAlertsEnabled : Bool := true

/-- `CONFIG.thresholds.activeRegion`. -/
def activeRegionMFlareProb : ℚ := 30

/-- `CONFIG.thresholds.activeRegion`. -/
def activeRegionXFlareProb : ℚ := 10

/-- `CONFIG.maxAlertHistory`. -/
def maxAlertHistory : Nat := 100

end CONFIG

/-! ### Alert evaluation (src/scripts/alerts.ts) -/

/-- Loop body for one Earth-directed CME: section 1 of `evaluateAlerts`
(src/scripts/alerts.ts lines 24–65). `now` is the tick's timestamp. -/
def cmeAlertsFor (now : ℤ) (knownCMEs : List KnownCME) (cme : CME) : List Alert :=
  match knownCMEs.find? (fun k => k.id == cme.id) with
  | none =>
      let predictedKp := cme.predictedKp.getD 0
      let urgency : AlertUrgency := if predictedKp ≥ 7 then .critical else .high
      [ { id := s!"cme-earth-{cme.id}"
        , type := "cme-earth"
        , urgency := urgency
        , title := "Earth-Directed CME" ++
            (if predictedKp ≥ 5 then s!" (Kp {predictedKp} predicted)" else "")
        , timestamp := now
        , sourceEventId := some cme.id } ]
  | some known =>
      let oldKp := known.predictedKp.getD 0
      let newKp := cme.predictedKp.getD 0
      let kpJump := newKp - oldKp
      if kpJump ≥ CONFIG.cmeRevisionKpJump ∧ newKp ≥ 5 then
        let urgency : AlertUrgency := if newKp ≥ 7 then .critical else .high
        [ { id := s!"cme-revision-{cme.id}-{now}"
          , type := "cme-revision"
          , urgency := urgency
          , title := s!"CME Forecast Upgraded: Kp {oldKp} → Kp {newKp}"
          , timestamp := now
          , sourceEventId := some cme.id } ]
      else []

/-- Loop body for one solar flare: section 2 of `evaluateAlerts`
(src/scripts/alerts.ts lines 68–93). The class letter is `classType.charAt(0)`
with no case conversion, compared against the literal characters X and M. -/
def flareAlertsFor (now : ℤ) (knownFlareIds : List String) (flare : SolarFlare) : List Alert :=
  if knownFlareIds.contains flare.id then []
  else
    match flare.classType.toList.head? with
    | none => []
    | some letter =>
        if letter = 'X' then
          [ { id := s!"flare-{flare.id}"
            , type := "flare-x"
            , urgency := .critical
            , title := s!"{flare.classType} Solar Flare"
            , timestamp := now
            , sourceEventId := some flare.id } ]
        else if letter = 'M' then
          [ { id := s!"flare-{flare.id}"
            , type := "flare-m"
            , urgency := .high
            , title := s!"{flare.classType} Solar Flare"
            , timestamp := now
            , sourceEventId := some flare.id } ]
        else []

/-- Loop body for one high-speed stream: section 3 of `evaluateAlerts`
(src/scripts/alerts.ts lines 96–108). -/
def hssAlertsFor (now : ℤ) (knownHSSIds : List String) (hss : HighSpeedStream) : List Alert :=
  if knownHSSIds.contains hss.id then []
  else
    [ { id := s!"hss-{hss.id}"
      , type := "hss-arrival"
      , urgency := .moderate
      , title := "Coronal Hole Stream Arriving"
      , timestamp := now
      , sourceEventId := some hss.id } ]

/-- Section 4 of `evaluateAlerts` (src/scripts/alerts.ts lines 110–142):
Kp threshold crossings, an if/else-if chain so at most one branch fires. -/
def kpCrossingAlerts (now : ℤ) (kp prevKp : ℚ) : List Alert :=
  if kp ≥ 7 ∧ prevKp < 7 then
    let kpInt := min (Rat.floor kp) 9
    [ { id := s!"kp-cross-7-{now}"
      , type := "kp-threshold"
      , urgency := .critical
      , title := s!"Kp {kp} — G{min (kpInt - 4) 5} Storm"
      , timestamp := now
      , sourceEventId := none } ]
  else if kp ≥ 5 ∧ prevKp < 5 then
    [ { id := s!"kp-cross-5-{now}"
      , type := "kp-threshold"
      , urgency := .high
      , title := s!"Kp {kp} — G1 Storm Threshold"
      , timestamp := now
      , sourceEventId := none } ]
  else if kp ≥ 4 ∧ prevKp < 4 then
    [ { id := s!"kp-cross-4-{now}"
      , type := "kp-elevated"
      , urgency := .info
      , title := s!"Kp Elevated to {kp}"
      , timestamp := now
      , sourceEventId := none } ]
  else []

/-- Section 5 of `evaluateAlerts` (src/scripts/alerts.ts lines 144–166):
southward Bz crossings. -/
def bzCrossingAlerts (now : ℤ) (bz prevBz : ℚ) : List Alert :=
  if bz ≤ -15 ∧ prevBz > -15 then
    [ { id := s!"bz-cross-15-{now}"
      , type := "bz-threshold"
      , urgency := .high
      , title := s!"Strong Southward Bz: {bz} nT"
      , timestamp := now
      , sourceEventId := none } ]
  else if bz ≤ -10 ∧ prevBz > -10 then
    [ { id := s!"bz-cross-10-{now}"
      , type := "bz-threshold"
      , urgency := .moderate
      , title := s!"Southward Bz: {bz} nT"
      , timestamp := now
      , sourceEventId := none } ]
  else []

/-- Section 6 of `evaluateAlerts` (src/scripts/alerts.ts lines 168–190):
solar wind speed crossings. -/
def windSpeedAlerts (now : ℤ) (windSpeed prevSpeed : ℚ) : List Alert :=
  if windSpeed ≥ 700 ∧ prevSpeed < 700 then
    [ { id := s!"wind-speed-700-{now}"
      , type := "wind-speed"
      , urgency := .high
      , title := s!"Solar Wind {windSpeed} km/s"
      , timestamp := now
      , sourceEventId := none } ]
  else if windSpeed ≥ 600 ∧ prevSpeed < 600 then
    [ { id := s!"wind-speed-600-{now}"
      , type := "wind-speed"
      , urgency := .moderate
      , title := s!"Solar Wind Elevated: {windSpeed} km/s"
      , timestamp := now
      , sourceEventId := none } ]
  else []

/-- Section 7 of `evaluateAlerts` (src/scripts/alerts.ts lines 192–205):
solar wind density spike. -/
def windDensityAlerts (now : ℤ) (density prevDensity : ℚ) : List Alert :=
  if density ≥ 20 ∧ prevDensity < 20 then
    [ { id := s!"wind-density-20-{now}"
      , type := "wind-density"
      , urgency := .moderate
      , title := s!"Density Spike: {density} p/cm3"
      , timestamp := now
      , sourceEventId := none } ]
  else []

/-- Loop body for one active region: section 8 of `evaluateAlerts`
(src/scripts/alerts.ts lines 207–226). -/
def regionAlertsFor (now : ℤ) (knownRegionNumbers : List ℚ) (region : ActiveRegion) : List Alert :=
  if knownRegionNumbers.contains region.regionNumber then []
  else if region.flareProb_M < CONFIG.activeRegionMFlareProb ∧
          region.flareProb_X < CONFIG.activeRegionXFlareProb then []
  else
    [ { id := s!"region-new-{region.regionNumber}"
      , type := "active-region"
      , urgency := .info
      , title := s!"New Active Region {region.regionNumber}"
      , timestamp := now
      , sourceEventId := none } ]

/-- Section 9 of `evaluateAlerts` (src/scripts/alerts.ts lines 228–267):
recovery ("all clear") alerts. The `kpWasAbove7` branch in the source is
intentionally empty and contributes nothing. -/
def allClearAlerts (now : ℤ) (prev : CheckerState) (kp bz windSpeed : ℚ) : List Alert :=
  (if prev.kpWasAbove5 ∧ kp < 5 then
    [ { id := s!"all-clear-kp5-{now}"
      , type := "all-clear"
      , urgency := .moderate
      , title := s!"Kp Returning to Normal: {kp}"
      , timestamp := now
      , sourceEventId := none } ]
   else []) ++
  (if prev.bzWasBelow15 ∧ bz > -10 then
    [ { id := s!"all-clear-bz15-{now}"
      , type := "all-clear"
      , urgency := .moderate
      , title := s!"Bz Recovering: {bz} nT"
      , timestamp := now
      , sourceEventId := none } ]
   else []) ++
  (if prev.windWasAbove700 ∧ windSpeed < 600 then
    [ { id := s!"all-clear-wind700-{now}"
      , type := "all-clear"
      , urgency := .moderate
      , title := s!"Solar Wind Easing: {windSpeed} km/s"
      , timestamp := now
      , sourceEventId := none } ]
   else [])

/-- `evaluateAlerts` (src/scripts/alerts.ts lines 15–270): all nine rule
sections in source order. Missing `magneticField` gives `bz = 0`; missing
`solarWind` gives speed and density 0. -/
def evaluateAlerts (now : ℤ) (snapshot : Snapshot) (activeRegions : List ActiveRegion)
    (prevState : CheckerState) : List Alert :=
  let bz := (snapshot.magneticField.map (fun m => m.bz)).getD 0
  let windSpeed := (snapshot.solarWind.map (fun w => w.speed)).getD 0
  let density := (snapshot.solarWind.map (fun w => w.density)).getD 0
  (snapshot.earthDirectedCMEs.flatMap (cmeAlertsFor now prevState.knownCMEs)) ++
  (snapshot.recentFlares.flatMap (flareAlertsFor now prevState.knownFlareIds)) ++
  (snapshot.recentHSS.flatMap (hssAlertsFor now prevState.knownHSSIds)) ++
  kpCrossingAlerts now snapshot.kp prevState.lastKp ++
  bzCrossingAlerts now bz prevState.lastBz ++
  windSpeedAlerts now windSpeed prevState.lastWindSpeed ++
  windDensityAlerts now density prevState.lastWindDensity ++
  (if CONFIG.activeRegionAlertsEnabled then
     activeRegions.flatMap (regionAlertsFor now prevState.knownRegionNumbers)
   else []) ++
  allClearAlerts now prevState snapshot.kp bz windSpeed


/-! ### Notification dispatch (src/scripts/notify.ts) -/

/-- `CONFIG.quietHours` shape. The code's fixed configuration is
`quietHoursDefault`; `isQuietHours` is stated over an arbitrary configuration
record since the claim covers both day and overnight windows. -/
structure QuietHoursConfig where
  enabled : Bool
  start : Int
  endHour : Int
deriving DecidableEq

/-- The fixed `CONFIG.quietHours` value from src/scripts/config.ts. -/
def quietHoursDefault : QuietHoursConfig := { enabled := true, start := 23, endHour := 7 }

/-- `isQuietHours` (src/scripts/notify.ts lines 116–127); `hour` is the current
local hour. Overnight ranges wrap when `start > end`. -/
def isQuietHours (q : QuietHoursConfig) (hour : Int) : Bool :=
  if !q.enabled then false
  else if q.start > q.endHour then decide (hour ≥ q.start) || decide (hour < q.endHour)
  else decide (hour ≥ q.start) && decide (hour < q.endHour)

/-- `dispatchAlert` (src/scripts/notify.ts lines 67–86). The result is the
list of channels the alert is routed to, or `none` for the quiet-hours early
return. Per-channel delivery failures are caught inside the channel senders
and do not affect control flow. -/
def dispatchAlert (q : QuietHoursConfig) (hour : Int) (alert : Alert) : Option (List String) :=
  if alert.urgency ≠ AlertUrgency.critical ∧ isQuietHours q hour then none
  else some (CONFIG.channels alert.urgency)

/-- `dispatchAlerts` (src/scripts/notify.ts lines 90–112): non-info alerts are
dispatched individually; a single info alert alone; two or more info alerts as
one synthetic `info-batch` alert. Returns each dispatched alert paired with
its routing outcome. -/
def dispatchAlerts (q : QuietHoursConfig) (hour : Int) (now : ℤ) (alerts : List Alert) :
    List (Alert × Option (List String)) :=
  let infoAlerts := alerts.filter (fun a => a.urgency == AlertUrgency.info)
  let otherAlerts := alerts.filter (fun a => a.urgency != AlertUrgency.info)
  (otherAlerts.map (fun a => (a, dispatchAlert q hour a))) ++
  (match infoAlerts with
   | [] => []
   | [a] => [(a, dispatchAlert q hour a)]
   | moreThanOne =>
       let batch : Alert :=
         { id := s!"info-batch-{now}"
         , type := "info-batch"
         , urgency := .info
         , title := s!"{moreThanOne.length} Space Weather Updates"
         , timestamp := now
         , sourceEventId := none }
       [(batch, dispatchAlert q hour batch)])

/-! ### State store and lock manager (src/scripts/state.ts) -/

/-- `DEFAULT_STATE` from src/scripts/state.ts (epoch timestamps are 0). -/
def defaultState : CheckerState :=
  { schemaVersion := 1
  , lastRunAt := 0
  , lastKp := 0
  , lastBz := 0
  , lastWindSpeed := 0
  , lastWindDensity := 0
  , kpWasAbove5 := false
  , kpWasAbove7 := false
  , bzWasBelow10 := false
  , bzWasBelow15 := false
  , windWasAbove600 := false
  , windWasAbove700 := false
  , densityWasAbove20 := false
  , knownCMEs := []
  , knownFlareIds := []
  , knownHSSIds := []
  , knownRegionNumbers := []
  , knownAlertProductIds := []
  , lastCooldowns := []
  , dataHealth := []
  , alertsSent := [] }

/-- Contents of the lockfile (`LockInfo` in src/scripts/state.ts). -/
structure LockInfo where
  pid : Int
  timestamp : ℤ
  host : String
deriving DecidableEq

/-- Observable states of the lockfile as `releaseLock` reads it: the file is
absent, present but not valid JSON, or present with parsed contents. -/
inductive LockFileState where
  | absent
  | corrupt
  | held (info : LockInfo)
deriving DecidableEq

/-- `releaseLock` (src/scripts/state.ts lines 140–153): unlink the lockfile
only when it exists, parses, and records our own pid; a parse error is caught
and leaves the file in place. -/
def releaseLock (myPid : Int) : LockFileState → LockFileState
  | .absent => .absent
  | .corrupt => .corrupt
  | .held info => if info.pid = myPid then .absent else .held info

/-- JavaScript `arr.slice(-n)`: the last `n` elements, except that
`slice(-0)` is `slice(0)` and keeps the whole array. -/
def jsSliceLast {α : Type} (n : Nat) (l : List α) : List α :=
  if n = 0 then l else l.drop (l.length - n)

/-- Update one key of an association list, modelling JavaScript object key
assignment (`recordCooldown`, src/scripts/state.ts lines 192–194). -/
def recordEntry (key : String) (value : ℤ) : List (String × ℤ) → List (String × ℤ)
  | [] => [(key, value)]
  | (k, v) :: rest => if k = key then (k, value) :: rest else (k, v) :: recordEntry key value rest

/-- `isCoolingDown` (src/scripts/state.ts lines 181–190): a missing or zero
cooldown never suppresses; otherwise suppress while less than
`cooldown * 60 * 1000` ms have elapsed since the type's last emission. -/
def isCoolingDown (now : ℤ) (alertType : String) (state : CheckerState) : Bool :=
  let cooldownMinutes := (CONFIG.cooldowns.lookup alertType).getD 0
  if cooldownMinutes = 0 then false
  else
    match state.lastCooldowns.lookup alertType with
    | none => false
    | some lastSent => decide (now - lastSent < cooldownMinutes * 60 * 1000)

/-! ### The checker tick's alert flow (src/scripts/checker.ts lines 129–178) -/

/-- Alert flow of one checker tick (src/scripts/checker.ts lines 129–145 and
178): filter candidates by cooldown, record a cooldown for each alert that
passes, and append the passed alerts to the history. Returns the passed
alerts and the updated state. Delivery (`dispatchAlerts`) returns no value
and cannot mutate the state. -/
def tickAlertFlow (now : ℤ) (candidates : List Alert) (state : CheckerState) :
    List Alert × CheckerState :=
  let alertsToSend := candidates.filter (fun a => !isCoolingDown now a.type state)
  let cooldowns := alertsToSend.foldl (fun m a => recordEntry a.type now m) state.lastCooldowns
  (alertsToSend,
   { state with lastCooldowns := cooldowns, alertsSent := state.alertsSent ++ alertsToSend })

/-- One checker tick including delivery (src/scripts/checker.ts lines
129–178): the dispatch outcomes depend on the quiet-hours configuration and
local hour, while the state update is `tickAlertFlow`. -/
def tickDispatch (q : QuietHoursConfig) (hour : Int) (now : ℤ) (candidates : List Alert)
    (state : CheckerState) : List (Alert × Option (List String)) × CheckerState :=
  let (alertsToSend, state') := tickAlertFlow now candidates state
  (dispatchAlerts q hour now alertsToSend, state')

/-- A sequence of checker ticks: each element of `ticks` is the tick's clock
time paired with the candidate alerts the evaluator produced then. The trace
records, per tick, the time and the alerts that passed the cooldown filter. -/
def runTrace (state : CheckerState) : List (ℤ × List Alert) → List (ℤ × List Alert)
  | [] => []
  | (t, cands) :: rest =>
      let (passed, state') := tickAlertFlow t cands state
      (t, passed) :: runTrace state' rest

/-! ### Prediction store (src/lib/predictions, unnamed part_004) -/

/-- Prediction verification status. -/
inductive PredictionStatus where
  | pending
  | hit
  | miss
deriving DecidableEq

/-- `MatchedEvent` from the prediction tracker. -/
structure MatchedEvent where
  type : String
  description : String
  timestamp : ℤ
deriving DecidableEq

/-- `Prediction` from the prediction tracker. -/
structure Prediction where
  id : String
  timestamp : ℤ
  note : Option String
  status : PredictionStatus
  verifiedAt : Option ℤ
  windowHours : ℤ
  windowEnd : ℤ
  matchedEvents : List MatchedEvent
deriving DecidableEq

/-- `PredictionConfig` from the prediction tracker. -/
structure PredictionConfig where
  verificationWindowHours : ℤ
  baseRate : Option ℚ
  baseRateComputedAt : Option ℤ
  baseRateSampleWindows : ℚ
  cooldownHours : ℤ
  maxPredictions : Nat
deriving DecidableEq

/-- `PredictionState` from the prediction tracker. -/
structure PredictionState where
  schemaVersion : ℚ
  predictions : List Prediction
  config : PredictionConfig
deriving DecidableEq

/-- `isWithinCooldown` (prediction tracker): true when a prediction exists and
the most recent one is younger than `cooldownHours`. -/
def isWithinCooldown (now : ℤ) (state : PredictionState) : Bool :=
  match state.predictions.getLast? with
  | none => false
  | some last => decide (now - last.timestamp < state.config.cooldownHours * 60 * 60 * 1000)

/-- Cap applied by `savePredictions`: when the count exceeds
`maxPredictions`, keep only the last `maxPredictions` (via `slice(-max)`). -/
def savePredictionsCap (state : PredictionState) : PredictionState :=
  if state.predictions.length > state.config.maxPredictions then
    { state with predictions := jsSliceLast state.config.maxPredictions state.predictions }
  else state

/-- Result of the prediction POST handler (src/app/page.tsx lines 181–227):
either a 429 cooldown rejection with its body fields, or the created
prediction together with the persisted state. -/
inductive SubmitResponse where
  | cooldownRejected (status : Nat) (error : String) (cooldownEnds : ℤ)
  | created (newState : PredictionState) (p : Prediction)
deriving DecidableEq

/-- The POST handler after authorization (src/app/page.tsx lines 186–227):
check the cooldown, otherwise append a fresh pending prediction whose window
ends `verificationWindowHours` after `now`, and persist (capped). `newId`
stands for the generated UUID, `rawNote` for `body.note` when it is a string. -/
def submitPrediction (now : ℤ) (newId : String) (rawNote : Option String)
    (state : PredictionState) : SubmitResponse :=
  let note : Option String :=
    match rawNote with
    | none => none
    | some s => let t := (s.trim.take 200); if t = "" then none else some t
  if isWithinCooldown now state then
    match state.predictions.getLast? with
    | some last =>
        .cooldownRejected 429 "cooldown"
          (last.timestamp + state.config.cooldownHours * 60 * 60 * 1000)
    | none => .cooldownRejected 429 "cooldown" 0
  else
    let p : Prediction :=
      { id := newId
      , timestamp := now
      , note := note
      , status := .pending
      , verifiedAt := none
      , windowHours := state.config.verificationWindowHours
      , windowEnd := now + state.config.verificationWindowHours * 60 * 60 * 1000
      , matchedEvents := [] }
    .created (savePredictionsCap { state with predictions := state.predictions ++ [p] }) p

/-! ### Prediction verification (src/scripts/verify-predictions, unnamed part_005) -/

/-- The matched event a qualifying `alertsSent` entry contributes
(`findMatchingEvents`, branch over `alert.type`). -/
def alertEvent (alert : Alert) : Option MatchedEvent :=
  if alert.type = "flare-m" ∨ alert.type = "flare-x" then
    some { type := "flare", description := alert.title, timestamp := alert.timestamp }
  else if alert.type = "kp-threshold" ∨ alert.type = "kp-elevated" then
    some { type := "kp", description := alert.title, timestamp := alert.timestamp }
  else if alert.type = "cme-earth" then
    some { type := "cme", description := alert.title, timestamp := alert.timestamp }
  else if alert.type = "bz-threshold" then
    some { type := "bz", description := alert.title, timestamp := alert.timestamp }
  else if alert.type = "wind-speed" then
    some { type := "wind", description := alert.title, timestamp := alert.timestamp }
  else none

/-- Push an event unless its `(type, timestamp)` dedup key is in the seen
set (the `seen` set of `findMatchingEvents`). -/
def pushEvent (acc : List (String × ℤ) × List MatchedEvent) (e : MatchedEvent) :
    List (String × ℤ) × List MatchedEvent :=
  let key := (e.type, e.timestamp)
  if acc.1.contains key then acc else (key :: acc.1, acc.2 ++ [e])

/-- Alert-history step of `findMatchingEvents`: skip alerts outside
`[start, stop]`, convert the qualifying types, and dedup. -/
def matchAlertsStep (start stop : ℤ) (acc : List (String × ℤ) × List MatchedEvent)
    (alert : Alert) : List (String × ℤ) × List MatchedEvent :=
  if alert.timestamp < start ∨ alert.timestamp > stop then acc
  else
    match alertEvent alert with
    | none => acc
    | some e => pushEvent acc e

/-- Flare step of `findMatchingEvents`: M- or X-class flares beginning inside
the window (covers alerts suppressed by cooldown). -/
def matchFlaresStep (start stop : ℤ) (acc : List (String × ℤ) × List MatchedEvent)
    (flare : SolarFlare) : List (String × ℤ) × List MatchedEvent :=
  if flare.beginTime < start ∨ flare.beginTime > stop then acc
  else if flare.classType.startsWith "M" || flare.classType.startsWith "X" then
    pushEvent acc
      { type := "flare", description := s!"{flare.classType} Flare"
      , timestamp := flare.beginTime }
  else acc

/-- Storm step of `findMatchingEvents`: geomagnetic storms with `kpIndex ≥ 5`
starting inside the window. -/
def matchStormsStep (start stop : ℤ) (acc : List (String × ℤ) × List MatchedEvent)
    (storm : GeomagneticStorm) : List (String × ℤ) × List MatchedEvent :=
  if storm.startTime < start ∨ storm.startTime > stop then acc
  else if storm.kpIndex ≥ 5 then
    pushEvent acc
      { type := "kp", description := s!"Kp {storm.kpIndex} ({storm.gScale})"
      , timestamp := storm.startTime }
  else acc

/-- CME step of `findMatchingEvents`: Earth-directed CMEs erupting inside the
window. -/
def matchCMEsStep (start stop : ℤ) (acc : List (String × ℤ) × List MatchedEvent)
    (cme : CME) : List (String × ℤ) × List MatchedEvent :=
  if cme.startTime < start ∨ cme.startTime > stop then acc
  else
    pushEvent acc
      { type := "cme"
      , description := "Earth-directed CME" ++
          (match cme.speed with | some s => s!" ({s} km/s)" | none => "")
      , timestamp := cme.startTime }

/-- `findMatchingEvents` (unnamed part_005 lines 406–494): events inside
`[prediction.timestamp, prediction.windowEnd]` drawn from qualifying
`alertsSent` entries, M/X-class flares, storms with `kpIndex ≥ 5`, and
Earth-directed CMEs, deduplicated by `(type, timestamp)`. -/
def findMatchingEvents (p : Prediction) (state : CheckerState) (snapshot : Snapshot) :
    List MatchedEvent :=
  let start := p.timestamp
  let stop := p.windowEnd
  let acc1 := state.alertsSent.foldl (matchAlertsStep start stop)
    (([], []) : List (String × ℤ) × List MatchedEvent)
  let acc2 := snapshot.recentFlares.foldl (matchFlaresStep start stop) acc1
  let acc3 := snapshot.recentStorms.foldl (matchStormsStep start stop) acc2
  let acc4 := snapshot.earthDirectedCMEs.foldl (matchCMEsStep start stop) acc3
  acc4.2

/-- Loop body of `verifyPendingPredictions` (unnamed part_005 lines 381–399):
a pending prediction whose window has expired becomes hit or miss. -/
def verifyOne (now : ℤ) (state : CheckerState) (snapshot : Snapshot) (p : Prediction) :
    Prediction :=
  if p.status ≠ PredictionStatus.pending then p
  else if p.windowEnd > now then p
  else
    let matched := findMatchingEvents p state snapshot
    { p with matchedEvents := matched
           , status := if matched.length > 0 then .hit else .miss
           , verifiedAt := some now }

/-- `verifyPendingPredictions` (unnamed part_005 lines 373–404), restricted to
its effect on the prediction list; the result notification and the save are
side effects that do not feed back into the list. -/
def verifyPendingPredictions (now : ℤ) (state : CheckerState) (snapshot : Snapshot)
    (predState : PredictionState) : PredictionState :=
  { predState with predictions := predState.predictions.map (verifyOne now state snapshot) }


/-! ### JSON model for the state store (src/scripts/state.ts lines 43–84)

`saveState` serializes the state to JSON after capping the alert history;
`loadState` parses the file and shallow-merges the parsed object over
`DEFAULT_STATE` key by key. The decoder below models that merge: a missing
(or non-conforming, which the encoder never produces) top-level field falls
back to the default. -/

/-- JSON values. -/
inductive Json where
  | null
  | bool (b : Bool)
  | num (q : ℚ)
  | str (s : String)
  | arr (elems : List Json)
  | obj (fields : List (String × Json))

/-- First value stored under a key in a JSON object. -/
def jlookup (key : String) : List (String × Json) → Option Json
  | [] => none
  | (k, v) :: rest => if k = key then some v else jlookup key rest

/-- Decode a JSON number. -/
def decNum : Json → Option ℚ
  | .num q => some q
  | _ => none

/-- Decode a JSON string. -/
def decStr : Json → Option String
  | .str s => some s
  | _ => none

/-- Decode a JSON boolean. -/
def decBool : Json → Option Bool
  | .bool b => some b
  | _ => none

/-- Decode a nullable JSON number (`number | null` fields). -/
def decOptNum : Json → Option (Option ℚ)
  | .null => some none
  | .num q => some (some q)
  | _ => none

/-- Decode a JSON number holding an integer (a modelled timestamp). -/
def decInt : Json → Option ℤ
  | .num q => if q.den = 1 then some q.num else none
  | _ => none

/-- Decode a nullable integer JSON number. -/
def decOptInt : Json → Option (Option ℤ)
  | .null => some none
  | .num q => if q.den = 1 then some (some q.num) else none
  | _ => none

/-- Encode an integer (a modelled timestamp) as a JSON number. -/
def encInt (z : ℤ) : Json := .num (z : ℚ)

/-- Encode a nullable integer. -/
def encOptInt : Option ℤ → Json
  | none => .null
  | some z => encInt z

/-- Decode a list of JSON values elementwise, failing if any element fails. -/
def decList {α : Type} (d : Json → Option α) : List Json → Option (List α)
  | [] => some []
  | x :: xs => do
      let a ← d x
      let rest ← decList d xs
      pure (a :: rest)

/-- Decode a JSON array elementwise. -/
def decArr {α : Type} (d : Json → Option α) : Json → Option (List α)
  | .arr xs => decList d xs
  | _ => none

/-- Decode an optional string field: `undefined` (missing key) becomes
`none`, which is how `JSON.stringify` drops undefined properties. -/
def decOptStrField (fields : List (String × Json)) (key : String) : Option (Option String) :=
  match jlookup key fields with
  | none => some none
  | some j => (decStr j).map some

/-- Encode a nullable number. -/
def encOptNum : Option ℚ → Json
  | none => .null
  | some q => .num q

/-- Encode an urgency as its JSON string. -/
def encUrgency : AlertUrgency → Json
  | .critical => .str "critical"
  | .high => .str "high"
  | .moderate => .str "moderate"
  | .info => .str "info"

/-- Decode an urgency string. -/
def decUrgency : Json → Option AlertUrgency
  | .str "critical" => some .critical
  | .str "high" => some .high
  | .str "moderate" => some .moderate
  | .str "info" => some .info
  | _ => none

/-- Encode a `SpaceWeatherAlert`; an undefined `sourceEventId` is omitted by
`JSON.stringify`. -/
def encAlert (a : Alert) : Json :=
  .obj ([ ("id", .str a.id)
        , ("type", .str a.type)
        , ("urgency", encUrgency a.urgency)
        , ("title", .str a.title)
        , ("timestamp", encInt a.timestamp) ] ++
        (match a.sourceEventId with
         | none => []
         | some s => [("sourceEventId", .str s)]))

/-- Decode a `SpaceWeatherAlert`. -/
def decAlert : Json → Option Alert
  | .obj fields => do
      let id ← (jlookup "id" fields).bind decStr
      let ty ← (jlookup "type" fields).bind decStr
      let ur ← (jlookup "urgency" fields).bind decUrgency
      let ti ← (jlookup "title" fields).bind decStr
      let ts ← (jlookup "timestamp" fields).bind decInt
      let se ← decOptStrField fields "sourceEventId"
      pure { id := id, type := ty, urgency := ur, title := ti, timestamp := ts
           , sourceEventId := se }
  | _ => none

/-- Encode a `KnownCME` (`null` forecast fields kept as JSON null). -/
def encKnownCME (k : KnownCME) : Json :=
  .obj [ ("id", .str k.id)
       , ("predictedKp", encOptNum k.predictedKp)
       , ("predictedArrival", encOptInt k.predictedArrival) ]

/-- Decode a `KnownCME`. -/
def decKnownCME : Json → Option KnownCME
  | .obj fields => do
      let id ← (jlookup "id" fields).bind decStr
      let pk ← (jlookup "predictedKp" fields).bind decOptNum
      let pa ← (jlookup "predictedArrival" fields).bind decOptInt
      pure { id := id, predictedKp := pk, predictedArrival := pa }
  | _ => none

/-- Encode a `DataHealthEntry`; an undefined `lastError` is omitted. -/
def encHealth (h : DataHealthEntry) : Json :=
  .obj ([ ("source", .str h.source)
        , ("ok", .bool h.ok)
        , ("lastSuccess", encInt h.lastSuccess) ] ++
        (match h.lastError with
         | none => []
         | some e => [("lastError", .str e)]))

/-- Decode a `DataHealthEntry`. -/
def decHealth : Json → Option DataHealthEntry
  | .obj fields => do
      let src ← (jlookup "source" fields).bind decStr
      let ok ← (jlookup "ok" fields).bind decBool
      let ls ← (jlookup "lastSuccess" fields).bind decInt
      let le ← decOptStrField fields "lastError"
      pure { source := src, ok := ok, lastSuccess := ls, lastError := le }
  | _ => none

/-- Decode the entries of a `Record<string, number>` object of timestamps. -/
def decIntPairs : List (String × Json) → Option (List (String × ℤ))
  | [] => some []
  | kv :: rest => do
      let q ← decInt kv.2
      let r ← decIntPairs rest
      pure ((kv.1, q) :: r)

/-- Decode a `Record<string, number>` object (the cooldown map). -/
def decCooldowns : Json → Option (List (String × ℤ))
  | .obj fields => decIntPairs fields
  | _ => none

/-- Serialize a `CheckerState` (body of `JSON.stringify` in `saveState`). -/
def encState (s : CheckerState) : Json :=
  .obj [ ("schemaVersion", .num s.schemaVersion)
       , ("lastRunAt", encInt s.lastRunAt)
       , ("lastKp", .num s.lastKp)
       , ("lastBz", .num s.lastBz)
       , ("lastWindSpeed", .num s.lastWindSpeed)
       , ("lastWindDensity", .num s.lastWindDensity)
       , ("kpWasAbove5", .bool s.kpWasAbove5)
       , ("kpWasAbove7", .bool s.kpWasAbove7)
       , ("bzWasBelow10", .bool s.bzWasBelow10)
       , ("bzWasBelow15", .bool s.bzWasBelow15)
       , ("windWasAbove600", .bool s.windWasAbove600)
       , ("windWasAbove700", .bool s.windWasAbove700)
       , ("densityWasAbove20", .bool s.densityWasAbove20)
       , ("knownCMEs", .arr (s.knownCMEs.map encKnownCME))
       , ("knownFlareIds", .arr (s.knownFlareIds.map Json.str))
       , ("knownHSSIds", .arr (s.knownHSSIds.map Json.str))
       , ("knownRegionNumbers", .arr (s.knownRegionNumbers.map Json.num))
       , ("knownAlertProductIds", .arr (s.knownAlertProductIds.map Json.str))
       , ("lastCooldowns", .obj (s.lastCooldowns.map (fun kv => (kv.1, encInt kv.2))))
       , ("dataHealth", .arr (s.dataHealth.map encHealth))
       , ("alertsSent", .arr (s.alertsSent.map encAlert)) ]

/-- Parse a state file: `{...DEFAULT_STATE, ...parsed}` in `loadState`
(src/scripts/state.ts lines 43–54). Every top-level key present in the
parsed object wins; a missing key keeps the default. -/
def decState (j : Json) : CheckerState :=
  match j with
  | .obj fields =>
      { schemaVersion := ((jlookup "schemaVersion" fields).bind decNum).getD defaultState.schemaVersion
      , lastRunAt := ((jlookup "lastRunAt" fields).bind decInt).getD defaultState.lastRunAt
      , lastKp := ((jlookup "lastKp" fields).bind decNum).getD defaultState.lastKp
      , lastBz := ((jlookup "lastBz" fields).bind decNum).getD defaultState.lastBz
      , lastWindSpeed := ((jlookup "lastWindSpeed" fields).bind decNum).getD defaultState.lastWindSpeed
      , lastWindDensity := ((jlookup "lastWindDensity" fields).bind decNum).getD defaultState.lastWindDensity
      , kpWasAbove5 := ((jlookup "kpWasAbove5" fields).bind decBool).getD defaultState.kpWasAbove5
      , kpWasAbove7 := ((jlookup "kpWasAbove7" fields).bind decBool).getD defaultState.kpWasAbove7
      , bzWasBelow10 := ((jlookup "bzWasBelow10" fields).bind decBool).getD defaultState.bzWasBelow10
      , bzWasBelow15 := ((jlookup "bzWasBelow15" fields).bind decBool).getD defaultState.bzWasBelow15
      , windWasAbove600 := ((jlookup "windWasAbove600" fields).bind decBool).getD defaultState.windWasAbove600
      , windWasAbove700 := ((jlookup "windWasAbove700" fields).bind decBool).getD defaultState.windWasAbove700
      , densityWasAbove20 := ((jlookup "densityWasAbove20" fields).bind decBool).getD defaultState.densityWasAbove20
      , knownCMEs := ((jlookup "knownCMEs" fields).bind (decArr decKnownCME)).getD defaultState.knownCMEs
      , knownFlareIds := ((jlookup "knownFlareIds" fields).bind (decArr decStr)).getD defaultState.knownFlareIds
      , knownHSSIds := ((jlookup "knownHSSIds" fields).bind (decArr decStr)).getD defaultState.knownHSSIds
      , knownRegionNumbers := ((jlookup "knownRegionNumbers" fields).bind (decArr decNum)).getD defaultState.knownRegionNumbers
      , knownAlertProductIds := ((jlookup "knownAlertProductIds" fields).bind (decArr decStr)).getD defaultState.knownAlertProductIds
      , lastCooldowns := ((jlookup "lastCooldowns" fields).bind decCooldowns).getD defaultState.lastCooldowns
      , dataHealth := ((jlookup "dataHealth" fields).bind (decArr decHealth)).getD defaultState.dataHealth
      , alertsSent := ((jlookup "alertsSent" fields).bind (decArr decAlert)).getD defaultState.alertsSent }
  | _ => defaultState

/-- `saveState` (src/scripts/state.ts lines 56–84): cap the alert history to
the last `maxAlertHistory` entries, then serialize. Returns the state as
mutated by the cap together with the JSON written to disk. -/
def saveStateModel (s : CheckerState) : CheckerState × Json :=
  let capped := { s with alertsSent := jsSliceLast CONFIG.maxAlertHistory s.alertsSent }
  (capped, encState capped)

/-- `loadState` (src/scripts/state.ts lines 43–54): an absent or unparseable
file yields the defaults, otherwise the parsed JSON merged over the defaults. -/
def loadStateModel : Option Json → CheckerState
  | none => defaultState
  | some j => decState j


/-! ### Theorems -/

/-- C9: `releaseLock` removes the lockfile exactly when the file exists,
parses as JSON, and its recorded pid equals the calling process's pid; in
every other case (absent file, unparseable file, or another process's pid)
the lockfile is left unchanged, so only the owning process can release it. -/
theorem releaseLock_only_owner (myPid : Int) (fs : LockFileState) :
    (releaseLock myPid fs = LockFileState.absent ↔
      fs = LockFileState.absent ∨
        ∃ info, fs = LockFileState.held info ∧ info.pid = myPid) ∧
    (releaseLock myPid fs = fs ∨
      ∃ info, fs = LockFileState.held info ∧ info.pid = myPid ∧
        releaseLock myPid fs = LockFileState.absent) := by
  cases fs with
  | absent => simp [releaseLock]
  | corrupt => simp [releaseLock]
  | held info => by_cases h : info.pid = myPid <;> simp [releaseLock, h]

/-- C6: `dispatchAlert` routes an alert to its urgency's channels exactly
when the alert is critical or quiet hours are not in effect, and returns
without delivering exactly when a non-critical alert meets active quiet
hours; quiet hours hold when enabled and the local hour is inside the
window, inclusive of start and exclusive of end, wrapping overnight when
`start > end`. -/
theorem dispatchAlert_quiet_hours (q : QuietHoursConfig) (hour : Int) (a : Alert) :
    (dispatchAlert q hour a = some (CONFIG.channels a.urgency) ↔
      a.urgency = AlertUrgency.critical ∨ isQuietHours q hour = false) ∧
    (dispatchAlert q hour a = none ↔
      a.urgency ≠ AlertUrgency.critical ∧ isQuietHours q hour = true) ∧
    (isQuietHours q hour = true ↔
      q.enabled = true ∧
        ((q.endHour < q.start ∧ (q.start ≤ hour ∨ hour < q.endHour)) ∨
         (q.start ≤ q.endHour ∧ q.start ≤ hour ∧ hour < q.endHour))) := by
  refine ⟨?_, ?_, ?_⟩
  · by_cases hc : a.urgency = AlertUrgency.critical <;>
      by_cases hq : isQuietHours q hour <;>
        simp [dispatchAlert, hc, hq]
  · by_cases hc : a.urgency = AlertUrgency.critical <;>
      by_cases hq : isQuietHours q hour <;>
        simp [dispatchAlert, hc, hq]
  · unfold isQuietHours
    by_cases he : q.enabled <;> by_cases hs : q.endHour < q.start <;>
      simp [he, hs] <;> omega

/-! Round-trip lemmas for the JSON model. -/

lemma decList_enc {α : Type} {d : Json → Option α} {e : α → Json}
    (h : ∀ x, d (e x) = some x) : ∀ l : List α, decList d (l.map e) = some l := by
  intro l
  induction l with
  | nil => rfl
  | cons x xs ih => simp [decList, h x, ih]

lemma decStr_enc (s : String) : decStr (Json.str s) = some s := rfl

lemma decNum_enc (q : ℚ) : decNum (Json.num q) = some q := rfl

lemma decInt_enc (z : ℤ) : decInt (encInt z) = some z := by
  simp [decInt, encInt]

lemma decOptInt_enc (z : Option ℤ) : decOptInt (encOptInt z) = some z := by
  cases z with
  | none => rfl
  | some z => simp [decOptInt, encOptInt, encInt]

lemma decUrgency_enc (u : AlertUrgency) : decUrgency (encUrgency u) = some u := by
  cases u <;> rfl

lemma decAlert_enc (a : Alert) : decAlert (encAlert a) = some a := by
  cases a with
  | mk id ty ur ti ts se =>
      cases se <;>
        simp +decide [encAlert, decAlert, jlookup, decStr, decInt_enc, decUrgency_enc,
          decOptStrField, bind, decInt, encInt]

lemma decKnownCME_enc (k : KnownCME) : decKnownCME (encKnownCME k) = some k := by
  cases k with
  | mk id pk pa =>
      cases pk <;> cases pa <;>
        simp +decide [encKnownCME, decKnownCME, jlookup, decStr, decOptNum, encOptNum,
          decOptInt, encOptInt, encInt, bind]

lemma decHealth_enc (h : DataHealthEntry) : decHealth (encHealth h) = some h := by
  cases h with
  | mk src ok ls le =>
      cases le <;>
        simp +decide [encHealth, decHealth, jlookup, decStr, decBool, decInt, encInt,
          decOptStrField, bind]

lemma decCooldowns_enc (m : List (String × ℤ)) :
    decCooldowns (Json.obj (m.map (fun kv => (kv.1, encInt kv.2)))) = some m := by
  simp only [decCooldowns]
  induction m with
  | nil => rfl
  | cons kv rest ih =>
      simp only [decCooldowns] at ih
      simp only [encInt] at ih ⊢
      simp [decIntPairs, decInt, ih]

lemma decState_encState (s : CheckerState) : decState (encState s) = s := by
  cases s
  simp +decide [encState, decState, jlookup, decNum, decBool, decInt_enc, decArr,
    decCooldowns_enc, decList_enc decAlert_enc, decList_enc decKnownCME_enc,
    decList_enc decHealth_enc, decList_enc decStr_enc, decList_enc decNum_enc]

/-- C8: after a successful `saveState` (which caps the alert history to the
last `maxAlertHistory` entries and serializes the result), `loadState` on the
written JSON — parse, then shallow-merge over the defaults — reproduces the
saved state exactly: round-trip identity. -/
theorem saveState_loadState_roundtrip (s : CheckerState) :
    loadStateModel (some (saveStateModel s).2) = (saveStateModel s).1 := by
  simp only [saveStateModel, loadStateModel]
  exact decState_encState _


/-! Helper lemmas isolating the Kp section inside `evaluateAlerts`. -/

/-- An alert of one of the two Kp alert types. -/
def isKpAlert (a : Alert) : Bool := a.type == "kp-threshold" || a.type == "kp-elevated"

lemma filter_flatMap_nil {α : Type} (f : α → List Alert) (p : Alert → Bool)
    (h : ∀ x, (f x).filter p = []) : ∀ l : List α, (l.flatMap f).filter p = [] := by
  intro l
  induction l with
  | nil => rfl
  | cons x xs ih => simp [List.filter_append, h x, ih]

lemma filter_isKp_cme (now : ℤ) (known : List KnownCME) (c : CME) :
    (cmeAlertsFor now known c).filter isKpAlert = [] := by
  unfold cmeAlertsFor
  split
  · simp [isKpAlert]
  · next k hk =>
      by_cases hj : (c.predictedKp.getD 0 - k.predictedKp.getD 0 ≥ CONFIG.cmeRevisionKpJump ∧
          c.predictedKp.getD 0 ≥ 5) <;>
        simp [hj, isKpAlert]

lemma filter_isKp_flare (now : ℤ) (known : List String) (f : SolarFlare) :
    (flareAlertsFor now known f).filter isKpAlert = [] := by
  unfold flareAlertsFor
  split
  · rfl
  · split
    · rfl
    · split <;> (try split) <;> simp [isKpAlert]

lemma filter_isKp_hss (now : ℤ) (known : List String) (h : HighSpeedStream) :
    (hssAlertsFor now known h).filter isKpAlert = [] := by
  unfold hssAlertsFor
  split <;> simp [isKpAlert]

lemma filter_isKp_bz (now : ℤ) (bz prevBz : ℚ) :
    (bzCrossingAlerts now bz prevBz).filter isKpAlert = [] := by
  unfold bzCrossingAlerts
  split <;> (try split) <;> simp [isKpAlert]

lemma filter_isKp_windSpeed (now : ℤ) (v prev : ℚ) :
    (windSpeedAlerts now v prev).filter isKpAlert = [] := by
  unfold windSpeedAlerts
  split <;> (try split) <;> simp [isKpAlert]

lemma filter_isKp_windDensity (now : ℤ) (d prev : ℚ) :
    (windDensityAlerts now d prev).filter isKpAlert = [] := by
  unfold windDensityAlerts
  split <;> simp [isKpAlert]

lemma filter_isKp_region (now : ℤ) (known : List ℚ) (r : ActiveRegion) :
    (regionAlertsFor now known r).filter isKpAlert = [] := by
  unfold regionAlertsFor
  split <;> (try split) <;> simp [isKpAlert]

lemma filter_isKp_allClear (now : ℤ) (prev : CheckerState) (kp bz windSpeed : ℚ) :
    (allClearAlerts now prev kp bz windSpeed).filter isKpAlert = [] := by
  unfold allClearAlerts
  simp only [List.filter_append]
  split <;> (try split) <;> (try split) <;> simp [isKpAlert]

lemma filter_isKp_kpCrossing (now : ℤ) (kp prevKp : ℚ) :
    (kpCrossingAlerts now kp prevKp).filter isKpAlert = kpCrossingAlerts now kp prevKp := by
  unfold kpCrossingAlerts
  split <;> (try split) <;> (try split) <;> simp [isKpAlert]

lemma evaluateAlerts_filter_isKp (now : ℤ) (snapshot : Snapshot)
    (regions : List ActiveRegion) (prev : CheckerState) :
    (evaluateAlerts now snapshot regions prev).filter isKpAlert =
      kpCrossingAlerts now snapshot.kp prev.lastKp := by
  unfold evaluateAlerts
  simp only [List.filter_append, CONFIG.activeRegionAlertsEnabled, if_true,
    filter_flatMap_nil _ _ (filter_isKp_cme now prev.knownCMEs),
    filter_flatMap_nil _ _ (filter_isKp_flare now prev.knownFlareIds),
    filter_flatMap_nil _ _ (filter_isKp_hss now prev.knownHSSIds),
    filter_flatMap_nil _ _ (filter_isKp_region now prev.knownRegionNumbers),
    filter_isKp_bz, filter_isKp_windSpeed, filter_isKp_windDensity,
    filter_isKp_allClear, filter_isKp_kpCrossing]
  simp

/-- C5: on a single tick the evaluator emits at most one Kp alert, chosen by
the highest matching branch of the else chain: `kp ≥ 7 ∧ prevKp < 7` gives a
critical `kp-threshold`; otherwise `kp ≥ 5 ∧ prevKp < 5` a high
`kp-threshold`; otherwise `kp ≥ 4 ∧ prevKp < 4` an info `kp-elevated`; and
no Kp alert when no threshold was crossed since the previous tick. -/
theorem evaluateAlerts_kp_single_branch (now : ℤ) (snapshot : Snapshot)
    (regions : List ActiveRegion) (prev : CheckerState) :
    ((evaluateAlerts now snapshot regions prev).filter isKpAlert).length ≤ 1 ∧
    ((∃ a ∈ (evaluateAlerts now snapshot regions prev).filter isKpAlert,
        a.type = "kp-threshold" ∧ a.urgency = AlertUrgency.critical) ↔
      snapshot.kp ≥ 7 ∧ prev.lastKp < 7) ∧
    ((∃ a ∈ (evaluateAlerts now snapshot regions prev).filter isKpAlert,
        a.type = "kp-threshold" ∧ a.urgency = AlertUrgency.high) ↔
      ¬(snapshot.kp ≥ 7 ∧ prev.lastKp < 7) ∧ snapshot.kp ≥ 5 ∧ prev.lastKp < 5) ∧
    ((∃ a ∈ (evaluateAlerts now snapshot regions prev).filter isKpAlert,
        a.type = "kp-elevated" ∧ a.urgency = AlertUrgency.info) ↔
      ¬(snapshot.kp ≥ 7 ∧ prev.lastKp < 7) ∧ ¬(snapshot.kp ≥ 5 ∧ prev.lastKp < 5) ∧
        snapshot.kp ≥ 4 ∧ prev.lastKp < 4) ∧
    ((evaluateAlerts now snapshot regions prev).filter isKpAlert = [] ↔
      ¬(snapshot.kp ≥ 7 ∧ prev.lastKp < 7) ∧ ¬(snapshot.kp ≥ 5 ∧ prev.lastKp < 5) ∧
        ¬(snapshot.kp ≥ 4 ∧ prev.lastKp < 4)) := by
  rw [evaluateAlerts_filter_isKp]
  unfold kpCrossingAlerts
  by_cases h7 : snapshot.kp ≥ 7 ∧ prev.lastKp < 7 <;>
    by_cases h5 : snapshot.kp ≥ 5 ∧ prev.lastKp < 5 <;>
      by_cases h4 : snapshot.kp ≥ 4 ∧ prev.lastKp < 4 <;>
        simp +decide [h7, h5, h4]


/-- C2: for an Earth-directed CME whose id is not yet known, the evaluator
emits exactly one `cme-earth` alert, critical exactly when its predicted Kp
(missing treated as 0) is at least 7 and high otherwise; for a known CME it
emits a `cme-revision` alert exactly when the predicted Kp rose by at least
the revision jump (2) and reaches at least 5 (both sides defaulting missing
Kp to 0), critical exactly when the new Kp is at least 7; any other revision
produces no alert. -/
theorem cme_alert_emission (now : ℤ) (known : List KnownCME) (c : CME) :
    (known.find? (fun k => k.id == c.id) = none →
      (cmeAlertsFor now known c).length = 1 ∧
      ∀ a ∈ cmeAlertsFor now known c,
        a.type = "cme-earth" ∧ a.sourceEventId = some c.id ∧
        (a.urgency = AlertUrgency.critical ↔ c.predictedKp.getD 0 ≥ 7) ∧
        (a.urgency = AlertUrgency.high ↔ ¬(c.predictedKp.getD 0 ≥ 7))) ∧
    (∀ k, known.find? (fun j => j.id == c.id) = some k →
      (cmeAlertsFor now known c ≠ [] ↔
        c.predictedKp.getD 0 - k.predictedKp.getD 0 ≥ 2 ∧ c.predictedKp.getD 0 ≥ 5) ∧
      (cmeAlertsFor now known c).length ≤ 1 ∧
      ∀ a ∈ cmeAlertsFor now known c,
        a.type = "cme-revision" ∧ a.sourceEventId = some c.id ∧
        (a.urgency = AlertUrgency.critical ↔ c.predictedKp.getD 0 ≥ 7) ∧
        (a.urgency = AlertUrgency.high ↔ ¬(c.predictedKp.getD 0 ≥ 7))) := by
  constructor
  · intro hfind
    unfold cmeAlertsFor
    rw [hfind]
    by_cases h7 : c.predictedKp.getD 0 ≥ 7 <;> simp [h7]
  · intro k hfind
    unfold cmeAlertsFor
    rw [hfind]
    simp only [CONFIG.cmeRevisionKpJump]
    by_cases hj : (c.predictedKp.getD 0 - k.predictedKp.getD 0 ≥ 2 ∧ c.predictedKp.getD 0 ≥ 5)
    · rw [if_pos hj]
      refine ⟨by simp [hj], by simp, ?_⟩
      intro a ha
      rw [List.mem_singleton] at ha
      subst ha
      by_cases h7 : c.predictedKp.getD 0 ≥ 7 <;> simp [h7]
    · rw [if_neg hj]
      refine ⟨by simp [hj], by simp, ?_⟩
      intro a ha
      simp at ha

/-- Witness for `cme_alert_emission` at concrete inputs: a brand-new CME with
predicted Kp 8 yields one alert, and a known CME revised from Kp 4 to Kp 7
yields a revision alert. -/
theorem cme_alert_emission_witness :
    (cmeAlertsFor 0 []
      { id := "c1", startTime := 0, speed := none, predictedArrival := none
      , predictedKp := some 8 }).length = 1 ∧
    cmeAlertsFor 0 [{ id := "c1", predictedKp := some 4, predictedArrival := none }]
      { id := "c1", startTime := 0, speed := none, predictedArrival := none
      , predictedKp := some 7 } ≠ [] := by
  constructor
  · exact ((cme_alert_emission 0 []
      { id := "c1", startTime := 0, speed := none, predictedArrival := none
      , predictedKp := some 8 }).1 rfl).1
  · exact (((cme_alert_emission 0
      [{ id := "c1", predictedKp := some 4, predictedArrival := none }]
      { id := "c1", startTime := 0, speed := none, predictedArrival := none
      , predictedKp := some 7 }).2
      { id := "c1", predictedKp := some 4, predictedArrival := none } rfl).1).mpr
      (by norm_num)

/-- Stated from the claim's wording, for comparison with the source: the
flare rule with the class letter extracted as `classType[0]` uppercased. The
source (src/scripts/alerts.ts line 72) performs no case conversion. -/
def flareAlertsForSpecUpper (now : ℤ) (knownFlareIds : List String) (flare : SolarFlare) :
    List Alert :=
  if knownFlareIds.contains flare.id then []
  else
    match (flare.classType.toList.head?).map Char.toUpper with
    | none => []
    | some letter =>
        if letter = 'X' then
          [ { id := s!"flare-{flare.id}"
            , type := "flare-x"
            , urgency := .critical
            , title := s!"{flare.classType} Solar Flare"
            , timestamp := now
            , sourceEventId := some flare.id } ]
        else if letter = 'M' then
          [ { id := s!"flare-{flare.id}"
            , type := "flare-m"
            , urgency := .high
            , title := s!"{flare.classType} Solar Flare"
            , timestamp := now
            , sourceEventId := some flare.id } ]
        else []

/-- C3, counterexample: a new flare of class `"x1.0"` — whose first character
uppercases to X — produces no alert in the source, because the comparison is
against the literal un-uppercased character; the claim's uppercase reading
would emit a `flare-x` alert here. -/
theorem flare_class_uppercase_counterexample :
    flareAlertsFor 0 []
      { id := "f1", beginTime := 0, classType := "x1.0", activeRegionNum := none } = [] ∧
    flareAlertsForSpecUpper 0 []
      { id := "f1", beginTime := 0, classType := "x1.0", activeRegionNum := none } ≠ [] ∧
    ("x1.0".toList.head?).map Char.toUpper = some 'X' := by
  refine ⟨rfl, ?_, rfl⟩
  decide

/-- C3, amended: the flare-class letter is `classType[0]` with no case
conversion; a new flare alerts as `flare-x` critical exactly for the literal
letter X and as `flare-m` high exactly for the literal M, with no alert for
any other first character (in particular C-class and below, and lowercase
letters) and no alert for an already-known flare id. -/
theorem flare_alert_emission (now : ℤ) (known : List String) (f : SolarFlare) :
    (known.contains f.id = true → flareAlertsFor now known f = []) ∧
    (known.contains f.id = false →
      (f.classType.toList.head? = some 'X' →
        (flareAlertsFor now known f).length = 1 ∧
        ∀ a ∈ flareAlertsFor now known f,
          a.type = "flare-x" ∧ a.urgency = AlertUrgency.critical ∧
          a.sourceEventId = some f.id) ∧
      (f.classType.toList.head? = some 'M' →
        (flareAlertsFor now known f).length = 1 ∧
        ∀ a ∈ flareAlertsFor now known f,
          a.type = "flare-m" ∧ a.urgency = AlertUrgency.high ∧
          a.sourceEventId = some f.id) ∧
      (∀ ch, f.classType.toList.head? = some ch → ch ≠ 'X' → ch ≠ 'M' →
        flareAlertsFor now known f = []) ∧
      (f.classType.toList.head? = none → flareAlertsFor now known f = [])) := by
  constructor
  · intro h
    unfold flareAlertsFor
    rw [if_pos h]
  · intro h
    have h' : ¬(known.contains f.id = true) := by rw [h]; simp
    refine ⟨?_, ?_, ?_, ?_⟩
    · intro hx
      simp only [String.toList] at hx
      unfold flareAlertsFor
      rw [if_neg h']
      simp [hx]
    · intro hm
      simp only [String.toList] at hm
      unfold flareAlertsFor
      rw [if_neg h']
      simp [hm]
    · intro ch hch hX hM
      simp only [String.toList] at hch
      unfold flareAlertsFor
      rw [if_neg h']
      simp [hch, hX, hM]
    · intro hn
      simp only [String.toList] at hn
      unfold flareAlertsFor
      rw [if_neg h']
      simp [hn]

/-- Witness for `flare_alert_emission`: a new `M1.2` flare yields exactly one
alert, and a known `X2.0` flare id yields none. -/
theorem flare_alert_emission_witness :
    (flareAlertsFor 0 []
      { id := "f1", beginTime := 0, classType := "M1.2", activeRegionNum := none }).length = 1 ∧
    flareAlertsFor 0 ["f2"]
      { id := "f2", beginTime := 0, classType := "X2.0", activeRegionNum := none } = [] := by
  constructor
  · exact (((flare_alert_emission 0 []
      { id := "f1", beginTime := 0, classType := "M1.2", activeRegionNum := none }).2
      rfl).2.1 rfl).1
  · exact (flare_alert_emission 0 ["f2"]
      { id := "f2", beginTime := 0, classType := "X2.0", activeRegionNum := none }).1 rfl


lemma getLast?_savePredictionsCap_append (st : PredictionState) (p : Prediction) :
    (savePredictionsCap
      { st with predictions := st.predictions ++ [p] }).predictions.getLast? = some p := by
  unfold savePredictionsCap jsSliceLast
  dsimp only
  by_cases hgt : (st.predictions ++ [p]).length > st.config.maxPredictions
  · rw [if_pos hgt]
    by_cases hn0 : st.config.maxPredictions = 0
    · rw [if_pos hn0]
      exact List.getLast?_concat _
    · rw [if_neg hn0, List.drop_append_of_le_length ?_]
      · exact List.getLast?_concat _
      · simp only [List.length_append, List.length_cons, List.length_nil]
        omega
  · rw [if_neg hgt]
    exact List.getLast?_concat _

/-- C7: a POST prediction submission is rejected with HTTP 429, body error
`"cooldown"` and a `cooldownEnds` of the last prediction's timestamp plus
`cooldownHours`, exactly when the most recent prediction exists and is
younger than `cooldownHours`; otherwise a fresh prediction with status
pending, window ending `verificationWindowHours` after submission, null
`verifiedAt` and no matched events is appended (it is the last entry of the
persisted list) and returned. -/
theorem submitPrediction_cooldown_or_append (now : ℤ) (newId : String)
    (rawNote : Option String) (st : PredictionState) :
    ((∃ ends, submitPrediction now newId rawNote st =
        SubmitResponse.cooldownRejected 429 "cooldown" ends) ↔
      ∃ last, st.predictions.getLast? = some last ∧
        now - last.timestamp < st.config.cooldownHours * 60 * 60 * 1000) ∧
    (∀ ends, submitPrediction now newId rawNote st =
        SubmitResponse.cooldownRejected 429 "cooldown" ends →
      ∃ last, st.predictions.getLast? = some last ∧
        ends = last.timestamp + st.config.cooldownHours * 60 * 60 * 1000) ∧
    (∀ st' p, submitPrediction now newId rawNote st = SubmitResponse.created st' p →
      p.status = PredictionStatus.pending ∧ p.timestamp = now ∧
      p.windowEnd = now + st.config.verificationWindowHours * 60 * 60 * 1000 ∧
      p.verifiedAt = none ∧ p.matchedEvents = [] ∧
      st'.predictions.getLast? = some p) ∧
    (isWithinCooldown now st = false →
      ∃ st' p, submitPrediction now newId rawNote st = SubmitResponse.created st' p) := by
  unfold submitPrediction
  by_cases hcool : isWithinCooldown now st
  · rw [if_pos hcool]
    have hcool0 : isWithinCooldown now st = true := hcool
    unfold isWithinCooldown at hcool
    cases hlast : st.predictions.getLast? with
    | none => rw [hlast] at hcool; simp at hcool
    | some last =>
        rw [hlast] at hcool
        simp only [decide_eq_true_eq] at hcool
        refine ⟨?_, ?_, ?_, ?_⟩
        · constructor
          · intro _
            exact ⟨last, rfl, hcool⟩
          · intro _
            exact ⟨_, rfl⟩
        · intro ends hends
          refine ⟨last, rfl, ?_⟩
          have h2 : SubmitResponse.cooldownRejected 429 "cooldown"
              (last.timestamp + st.config.cooldownHours * 60 * 60 * 1000) =
              SubmitResponse.cooldownRejected 429 "cooldown" ends := hends
          cases h2
          rfl
        · intro st' p h
          exact absurd (show SubmitResponse.cooldownRejected 429 "cooldown"
            (last.timestamp + st.config.cooldownHours * 60 * 60 * 1000) =
            SubmitResponse.created st' p from h) (by simp)
        · intro hfalse
          rw [hcool0] at hfalse
          exact Bool.noConfusion hfalse
  · rw [if_neg hcool]
    refine ⟨?_, ?_, ?_, ?_⟩
    · constructor
      · intro ⟨ends, h⟩
        exact absurd h (by simp)
      · intro ⟨last, hlast, hlt⟩
        exfalso
        apply hcool
        unfold isWithinCooldown
        rw [hlast]
        simpa using hlt
    · intro ends h
      exact absurd h (by simp)
    · intro st' p h
      cases h
      exact ⟨rfl, rfl, rfl, rfl, rfl, getLast?_savePredictionsCap_append st _⟩
    · intro _
      exact ⟨_, _, rfl⟩

/-- Witness for `submitPrediction_cooldown_or_append`: submitting into an
empty store at time 0 creates a pending prediction, and resubmitting one
hour later against the default six-hour cooldown is rejected with 429. -/
theorem submitPrediction_cooldown_or_append_witness :
    (∃ st' p, submitPrediction 0 "p1" none
      { schemaVersion := 1, predictions := []
      , config := { verificationWindowHours := 48, baseRate := none
                  , baseRateComputedAt := none, baseRateSampleWindows := 0
                  , cooldownHours := 6, maxPredictions := 500 } } =
        SubmitResponse.created st' p) ∧
    (∃ ends, submitPrediction 3600000 "p2" none
      { schemaVersion := 1
      , predictions :=
          [{ id := "p1", timestamp := 0, note := none, status := .pending
           , verifiedAt := none, windowHours := 48, windowEnd := 172800000
           , matchedEvents := [] }]
      , config := { verificationWindowHours := 48, baseRate := none
                  , baseRateComputedAt := none, baseRateSampleWindows := 0
                  , cooldownHours := 6, maxPredictions := 500 } } =
        SubmitResponse.cooldownRejected 429 "cooldown" ends) := by
  constructor
  · exact (submitPrediction_cooldown_or_append 0 "p1" none _).2.2.2 (by decide)
  · exact (submitPrediction_cooldown_or_append 3600000 "p2" none _).1.mpr
      ⟨{ id := "p1", timestamp := 0, note := none, status := .pending
       , verifiedAt := none, windowHours := 48, windowEnd := 172800000
       , matchedEvents := [] }, rfl, by norm_num⟩


/-! Window-membership infrastructure for `findMatchingEvents`. -/

lemma pushEvent_mem {acc : List (String × ℤ) × List MatchedEvent} {e x : MatchedEvent}
    (h : x ∈ (pushEvent acc e).2) : x ∈ acc.2 ∨ x = e := by
  simp only [pushEvent] at h
  split at h
  · exact .inl h
  · rcases List.mem_append.mp h with h' | h'
    · exact .inl h'
    · exact .inr (List.mem_singleton.mp h')

lemma alertEvent_timestamp {alert : Alert} {e : MatchedEvent} (h : alertEvent alert = some e) :
    e.timestamp = alert.timestamp := by
  unfold alertEvent at h
  split_ifs at h <;> (cases h; rfl)

lemma matchAlertsStep_mem {start stop : ℤ} {acc : List (String × ℤ) × List MatchedEvent}
    {a : Alert} {x : MatchedEvent} (h : x ∈ (matchAlertsStep start stop acc a).2) :
    x ∈ acc.2 ∨ (start ≤ x.timestamp ∧ x.timestamp ≤ stop) := by
  unfold matchAlertsStep at h
  split at h
  · exact .inl h
  · next hw =>
      push_neg at hw
      split at h
      · exact .inl h
      · next e he =>
          rcases pushEvent_mem h with h' | rfl
          · exact .inl h'
          · exact .inr (by rw [alertEvent_timestamp he]; exact ⟨hw.1, hw.2⟩)

lemma matchFlaresStep_mem {start stop : ℤ} {acc : List (String × ℤ) × List MatchedEvent}
    {f : SolarFlare} {x : MatchedEvent} (h : x ∈ (matchFlaresStep start stop acc f).2) :
    x ∈ acc.2 ∨ (start ≤ x.timestamp ∧ x.timestamp ≤ stop) := by
  unfold matchFlaresStep at h
  split at h
  · exact .inl h
  · next hw =>
      push_neg at hw
      split at h
      · rcases pushEvent_mem h with h' | rfl
        · exact .inl h'
        · exact .inr ⟨hw.1, hw.2⟩
      · exact .inl h

lemma matchStormsStep_mem {start stop : ℤ} {acc : List (String × ℤ) × List MatchedEvent}
    {s : GeomagneticStorm} {x : MatchedEvent} (h : x ∈ (matchStormsStep start stop acc s).2) :
    x ∈ acc.2 ∨ (start ≤ x.timestamp ∧ x.timestamp ≤ stop) := by
  unfold matchStormsStep at h
  split at h
  · exact .inl h
  · next hw =>
      push_neg at hw
      split at h
      · rcases pushEvent_mem h with h' | rfl
        · exact .inl h'
        · exact .inr ⟨hw.1, hw.2⟩
      · exact .inl h

lemma matchCMEsStep_mem {start stop : ℤ} {acc : List (String × ℤ) × List MatchedEvent}
    {c : CME} {x : MatchedEvent} (h : x ∈ (matchCMEsStep start stop acc c).2) :
    x ∈ acc.2 ∨ (start ≤ x.timestamp ∧ x.timestamp ≤ stop) := by
  unfold matchCMEsStep at h
  split at h
  · exact .inl h
  · next hw =>
      push_neg at hw
      rcases pushEvent_mem h with h' | rfl
      · exact .inl h'
      · exact .inr ⟨hw.1, hw.2⟩

lemma foldl_mem_inv {α : Type} {P : MatchedEvent → Prop}
    {step : List (String × ℤ) × List MatchedEvent → α → List (String × ℤ) × List MatchedEvent}
    (hstep : ∀ acc a x, x ∈ (step acc a).2 → x ∈ acc.2 ∨ P x) :
    ∀ (l : List α) (acc : List (String × ℤ) × List MatchedEvent) (x : MatchedEvent),
      x ∈ (l.foldl step acc).2 → x ∈ acc.2 ∨ P x := by
  intro l
  induction l with
  | nil => exact fun acc x h => .inl h
  | cons a rest ih =>
      intro acc x h
      rcases ih (step acc a) x h with h' | hp
      · exact hstep acc a x h'
      · exact .inr hp

lemma findMatchingEvents_in_window (p : Prediction) (state : CheckerState)
    (snapshot : Snapshot) :
    ∀ e ∈ findMatchingEvents p state snapshot,
      p.timestamp ≤ e.timestamp ∧ e.timestamp ≤ p.windowEnd := by
  intro e he
  unfold findMatchingEvents at he
  rcases foldl_mem_inv (fun acc a x h => matchCMEsStep_mem h) _ _ e he with h3 | hp
  · rcases foldl_mem_inv (fun acc a x h => matchStormsStep_mem h) _ _ e h3 with h2 | hp
    · rcases foldl_mem_inv (fun acc a x h => matchFlaresStep_mem h) _ _ e h2 with h1 | hp
      · rcases foldl_mem_inv (fun acc a x h => matchAlertsStep_mem h) _ _ e h1 with h0 | hp
        · simp at h0
        · exact hp
      · exact hp
    · exact hp
  · exact hp

/-- C1: on a verification pass, every pending prediction whose window has
expired (`windowEnd ≤ now`) transitions to hit exactly when the matched-event
set — drawn from qualifying alert history entries, M/X flares, storms with
`kpIndex ≥ 5` and Earth-directed CMEs inside `[timestamp, windowEnd]`,
deduplicated by type and timestamp — is non-empty, and to miss otherwise,
with `verifiedAt = now ≥ windowEnd`; predictions whose window is open or
already decided are unchanged. -/
theorem verifyPendingPredictions_spec (now : ℤ) (state : CheckerState)
    (snapshot : Snapshot) (predState : PredictionState) :
    (verifyPendingPredictions now state snapshot predState).predictions =
      predState.predictions.map (verifyOne now state snapshot) ∧
    ∀ p : Prediction,
      (p.status = PredictionStatus.pending → p.windowEnd ≤ now →
        (verifyOne now state snapshot p).status =
          (if findMatchingEvents p state snapshot = [] then PredictionStatus.miss
           else PredictionStatus.hit) ∧
        ((verifyOne now state snapshot p).status = PredictionStatus.hit ↔
          (verifyOne now state snapshot p).matchedEvents ≠ []) ∧
        (verifyOne now state snapshot p).matchedEvents =
          findMatchingEvents p state snapshot ∧
        (verifyOne now state snapshot p).verifiedAt = some now ∧
        (∀ t, (verifyOne now state snapshot p).verifiedAt = some t → p.windowEnd ≤ t)) ∧
      (¬(p.status = PredictionStatus.pending ∧ p.windowEnd ≤ now) →
        verifyOne now state snapshot p = p) ∧
      (∀ e ∈ findMatchingEvents p state snapshot,
        p.timestamp ≤ e.timestamp ∧ e.timestamp ≤ p.windowEnd) := by
  refine ⟨rfl, ?_⟩
  intro p
  refine ⟨?_, ?_, findMatchingEvents_in_window p state snapshot⟩
  · intro hp hW
    unfold verifyOne
    rw [if_neg (by simp [hp]), if_neg (by simpa using hW)]
    by_cases hm : findMatchingEvents p state snapshot = [] <;>
      simp [hm, List.length_pos] <;> exact hW
  · intro hnot
    unfold verifyOne
    by_cases hp : p.status = PredictionStatus.pending
    · rw [if_neg (by simp [hp]), if_pos (by push_neg at hnot; exact hnot hp)]
    · rw [if_pos (by simpa using hp)]

/-- Witness for `verifyPendingPredictions_spec`: a pending prediction made at
time 0 with a 48-hour window, verified just after expiry against a snapshot
holding one M-class flare inside the window, gets `verifiedAt` stamped with
the verification time. -/
theorem verifyPendingPredictions_spec_witness :
    (verifyOne 172800001 defaultState
      { kp := 0, solarWind := none, magneticField := none, earthDirectedCMEs := []
      , recentFlares := [{ id := "fm", beginTime := 1000, classType := "M2.1"
                         , activeRegionNum := none }]
      , recentStorms := [], recentHSS := [] }
      { id := "q1", timestamp := 0, note := none, status := .pending
      , verifiedAt := none, windowHours := 48, windowEnd := 172800000
      , matchedEvents := [] }).verifiedAt = some 172800001 :=
  (((verifyPendingPredictions_spec 172800001 defaultState
      { kp := 0, solarWind := none, magneticField := none, earthDirectedCMEs := []
      , recentFlares := [{ id := "fm", beginTime := 1000, classType := "M2.1"
                         , activeRegionNum := none }]
      , recentStorms := [], recentHSS := [] }
      { schemaVersion := 1, predictions := []
      , config := { verificationWindowHours := 48, baseRate := none
                  , baseRateComputedAt := none, baseRateSampleWindows := 0
                  , cooldownHours := 6, maxPredictions := 500 } }).2
      { id := "q1", timestamp := 0, note := none, status := .pending
      , verifiedAt := none, windowHours := 48, windowEnd := 172800000
      , matchedEvents := [] }).1 rfl (by norm_num)).2.2.2.1


/-! Cooldown bookkeeping lemmas. -/

lemma lookup_recordEntry_self (ty : String) (v : ℤ) (m : List (String × ℤ)) :
    (recordEntry ty v m).lookup ty = some v := by
  induction m with
  | nil => simp [recordEntry]
  | cons kv rest ih =>
      rcases kv with ⟨k, w⟩
      by_cases h : k = ty
      · subst h
        simp [recordEntry]
      · have hbf : (ty == k) = false := beq_eq_false_iff_ne.mpr (Ne.symm h)
        simp [recordEntry, h, List.lookup_cons, hbf, ih]

lemma lookup_recordEntry_ne {ty ty' : String} (h : ty' ≠ ty) (v : ℤ)
    (m : List (String × ℤ)) : (recordEntry ty v m).lookup ty' = m.lookup ty' := by
  have hbf : (ty' == ty) = false := beq_eq_false_iff_ne.mpr h
  induction m with
  | nil => simp [recordEntry, List.lookup_cons, hbf]
  | cons kv rest ih =>
      rcases kv with ⟨k, w⟩
      by_cases hk : k = ty
      · subst hk
        simp [recordEntry, List.lookup_cons, hbf]
      · simp [recordEntry, hk, List.lookup_cons, ih]

lemma lookup_fold_record_mem (now : ℤ) :
    ∀ (l : List Alert) (m : List (String × ℤ)) (ty : String),
      (ty ∈ l.map Alert.type ∨ m.lookup ty = some now) →
      (l.foldl (fun acc a => recordEntry a.type now acc) m).lookup ty = some now := by
  intro l
  induction l with
  | nil =>
      intro m ty h
      rcases h with h | h
      · simp at h
      · simpa using h
  | cons a rest ih =>
      intro m ty h
      apply ih
      by_cases hty : ty = a.type
      · subst hty
        exact Or.inr (lookup_recordEntry_self _ _ _)
      · rcases h with h | h
        · rw [List.map_cons] at h
          rcases List.mem_cons.mp h with h' | h'
          · exact absurd h' hty
          · exact Or.inl h'
        · exact Or.inr (by rw [lookup_recordEntry_ne hty]; exact h)

lemma lookup_fold_record_notmem (now : ℤ) :
    ∀ (l : List Alert) (m : List (String × ℤ)) (ty : String),
      ty ∉ l.map Alert.type →
      (l.foldl (fun acc a => recordEntry a.type now acc) m).lookup ty = m.lookup ty := by
  intro l
  induction l with
  | nil => intro m ty _; rfl
  | cons a rest ih =>
      intro m ty h
      have h1 : ty ≠ a.type := fun hc => h (by simp [hc])
      have h2 : ty ∉ rest.map Alert.type := fun hc => h (by simp [hc])
      rw [List.foldl_cons, ih _ _ h2, lookup_recordEntry_ne h1]

lemma runTrace_cons (state : CheckerState) (t : ℤ) (cands : List Alert)
    (rest : List (ℤ × List Alert)) :
    runTrace state ((t, cands) :: rest) =
      (t, (tickAlertFlow t cands state).1) ::
        runTrace (tickAlertFlow t cands state).2 rest := rfl

lemma tickAlertFlow_passed (now : ℤ) (cands : List Alert) (st : CheckerState) :
    (tickAlertFlow now cands st).1 =
      cands.filter (fun a => !isCoolingDown now a.type st) := rfl

lemma tickAlertFlow_lastCooldowns (now : ℤ) (cands : List Alert) (st : CheckerState) :
    (tickAlertFlow now cands st).2.lastCooldowns =
      (tickAlertFlow now cands st).1.foldl
        (fun acc a => recordEntry a.type now acc) st.lastCooldowns := rfl

lemma passed_not_coolingDown {now : ℤ} {cands : List Alert} {st : CheckerState} {a : Alert}
    (ha : a ∈ (tickAlertFlow now cands st).1) : isCoolingDown now a.type st = false := by
  rw [tickAlertFlow_passed] at ha
  simpa using (List.mem_filter.mp ha).2

lemma passed_gap {now : ℤ} {cands : List Alert} {st : CheckerState} {a : Alert} {c v : ℤ}
    (ha : a ∈ (tickAlertFlow now cands st).1)
    (hc : CONFIG.cooldowns.lookup a.type = some c) (hc0 : c ≠ 0)
    (hv : st.lastCooldowns.lookup a.type = some v) :
    now - v ≥ c * 60 * 1000 := by
  have hncool := passed_not_coolingDown ha
  simp only [isCoolingDown, hc, Option.getD_some, hv, if_neg hc0] at hncool
  simpa using hncool

/-- If some cooldown for `ty` is already on record at `v`, any later tick at
which an alert of type `ty` passes the filter happens at least the cooldown
interval after `v` (times along the run are nondecreasing and at least `v`). -/
lemma gap_from_recorded {ty : String} {c : ℤ}
    (hc : CONFIG.cooldowns.lookup ty = some c) (hc0 : c ≠ 0) :
    ∀ (ticks : List (ℤ × List Alert)) (st : CheckerState) (v : ℤ),
      st.lastCooldowns.lookup ty = some v →
      (∀ x ∈ ticks, v ≤ x.1) →
      List.Pairwise (fun x y => x.1 ≤ y.1) ticks →
      ∀ (l2 l3 : List (ℤ × List Alert)) (t2 : ℤ) (p2 : List Alert) (a2 : Alert),
        runTrace st ticks = l2 ++ (t2, p2) :: l3 → a2 ∈ p2 → a2.type = ty →
        t2 - v ≥ c * 60 * 1000 := by
  intro ticks
  induction ticks with
  | nil =>
      intro st v _ _ _ l2 l3 t2 p2 a2 heq _ _
      rw [show runTrace st [] = [] from rfl] at heq
      exact absurd heq.symm (List.append_ne_nil_of_right_ne_nil _ (by simp))
  | cons tick rest ih =>
      intro st v hv hall hmono l2 l3 t2 p2 a2 heq ha2 hty
      rcases tick with ⟨t0, c0⟩
      rw [runTrace_cons] at heq
      cases l2 with
      | nil =>
          simp only [List.nil_append, List.cons.injEq, Prod.mk.injEq] at heq
          obtain ⟨⟨rfl, rfl⟩, -⟩ := heq
          subst hty
          have := passed_gap (c := c) (v := v) ha2 hc hc0 hv
          linarith
      | cons x l2' =>
          simp only [List.cons_append, List.cons.injEq] at heq
          rcases heq with ⟨-, heq2⟩
          by_cases hmem : ty ∈ (tickAlertFlow t0 c0 st).1.map Alert.type
          · have hv' : (tickAlertFlow t0 c0 st).2.lastCooldowns.lookup ty = some t0 := by
              rw [tickAlertFlow_lastCooldowns]
              exact lookup_fold_record_mem t0 _ _ _ (Or.inl hmem)
            have hge : v ≤ t0 := hall (t0, c0) (List.mem_cons_self _ _)
            have hall' : ∀ x ∈ rest, t0 ≤ x.1 := fun y hy =>
              (List.pairwise_cons.mp hmono).1 y hy
            have := ih (tickAlertFlow t0 c0 st).2 t0 hv' hall'
              (List.pairwise_cons.mp hmono).2 l2' l3 t2 p2 a2 heq2 ha2 hty
            linarith
          · have hv' : (tickAlertFlow t0 c0 st).2.lastCooldowns.lookup ty = some v := by
              rw [tickAlertFlow_lastCooldowns,
                lookup_fold_record_notmem t0 _ _ _ hmem]
              exact hv
            have hall' : ∀ x ∈ rest, v ≤ x.1 := fun y hy =>
              hall y (List.mem_cons_of_mem _ hy)
            exact ih (tickAlertFlow t0 c0 st).2 v hv' hall'
              (List.pairwise_cons.mp hmono).2 l2' l3 t2 p2 a2 heq2 ha2 hty

/-- C4, counterexample: two new M-class flares in one tick are both filtered
against the same pre-tick cooldown state, so two `flare-m` alerts — a type
whose cooldown is 60 minutes — pass together with zero separation. -/
theorem cooldown_same_tick_counterexample :
    runTrace defaultState
      [(0, [ { id := "flare-f1", type := "flare-m", urgency := AlertUrgency.high
             , title := "M1.0 Solar Flare", timestamp := 0, sourceEventId := some "f1" }
           , { id := "flare-f2", type := "flare-m", urgency := AlertUrgency.high
             , title := "M2.0 Solar Flare", timestamp := 0, sourceEventId := some "f2" } ])] =
      [(0, [ { id := "flare-f1", type := "flare-m", urgency := AlertUrgency.high
             , title := "M1.0 Solar Flare", timestamp := 0, sourceEventId := some "f1" }
           , { id := "flare-f2", type := "flare-m", urgency := AlertUrgency.high
             , title := "M2.0 Solar Flare", timestamp := 0, sourceEventId := some "f2" } ])] ∧
    CONFIG.cooldowns.lookup "flare-m" = some 60 ∧
    ¬((0 : ℤ) - 0 ≥ 60 * 60 * 1000) := by
  refine ⟨?_, by decide, by norm_num⟩
  decide

/-- C4, amended: an alert is dropped by the cooldown filter exactly when its
type has a nonzero configured cooldown `c` and a recorded last emission less
than `c` minutes old (so a cooldown of 0 never suppresses); every alert that
passes has its type's cooldown stamped with the tick time; and any two
passing alerts of the same positive-cooldown type in *different* ticks of a
run with nondecreasing clock are at least `c` minutes apart. Within a single
tick, several candidates of one type are filtered against the same pre-tick
state and may pass together. -/
theorem cooldown_cross_tick_gap :
    (∀ (now : ℤ) (ty : String) (st : CheckerState),
      isCoolingDown now ty st = true ↔
        ∃ c, CONFIG.cooldowns.lookup ty = some c ∧ c ≠ 0 ∧
          ∃ last, st.lastCooldowns.lookup ty = some last ∧ now - last < c * 60 * 1000) ∧
    (∀ (now : ℤ) (cands : List Alert) (st : CheckerState) (a : Alert),
      a ∈ (tickAlertFlow now cands st).1 →
        (tickAlertFlow now cands st).2.lastCooldowns.lookup a.type = some now) ∧
    (∀ (st : CheckerState) (ticks l1 l2 l3 : List (ℤ × List Alert)) (t1 t2 : ℤ)
        (p1 p2 : List Alert) (a1 a2 : Alert) (c : ℤ),
      runTrace st ticks = l1 ++ (t1, p1) :: l2 ++ (t2, p2) :: l3 →
      List.Pairwise (fun x y => x.1 ≤ y.1) ticks →
      a1 ∈ p1 → a2 ∈ p2 → a2.type = a1.type →
      CONFIG.cooldowns.lookup a1.type = some c → c ≠ 0 →
      t2 - t1 ≥ c * 60 * 1000) := by
  refine ⟨?_, ?_, ?_⟩
  · intro now ty st
    constructor
    · intro h
      simp only [isCoolingDown] at h
      split at h
      · cases h
      · next hne =>
          split at h
          · cases h
          · next last hl =>
              simp only [decide_eq_true_eq] at h
              refine ⟨(CONFIG.cooldowns.lookup ty).getD 0, ?_, hne, last, hl, h⟩
              cases hcc : CONFIG.cooldowns.lookup ty with
              | none => rw [hcc] at hne; simp at hne
              | some c => rfl
    · rintro ⟨c, hc, hc0, last, hl, hlt⟩
      simp only [isCoolingDown, hc, Option.getD_some, hl, if_neg hc0]
      simpa using hlt
  · intro now cands st a ha
    rw [tickAlertFlow_lastCooldowns]
    exact lookup_fold_record_mem now _ _ _ (Or.inl (List.mem_map_of_mem Alert.type ha))
  · intro st ticks l1 l2 l3 t1 t2 p1 p2 a1 a2 c heq hmono ha1 ha2 hty hc hc0
    induction l1 generalizing st ticks with
    | nil =>
        cases ticks with
        | nil =>
            rw [show runTrace st [] = [] from rfl] at heq
            exact absurd heq.symm (List.append_ne_nil_of_right_ne_nil _ (by simp))
        | cons tick rest =>
            rcases tick with ⟨t0, c0⟩
            rw [runTrace_cons] at heq
            injection heq with heq1 heq2
            injection heq1 with ht hp
            subst ht
            rw [← hp] at ha1
            have hv' : (tickAlertFlow t0 c0 st).2.lastCooldowns.lookup a1.type = some t0 := by
              rw [tickAlertFlow_lastCooldowns]
              exact lookup_fold_record_mem t0 _ _ _
                (Or.inl (List.mem_map_of_mem Alert.type ha1))
            exact gap_from_recorded hc hc0 rest (tickAlertFlow t0 c0 st).2 t0 hv'
              (fun y hy => (List.pairwise_cons.mp hmono).1 y hy)
              (List.pairwise_cons.mp hmono).2 l2 l3 t2 p2 a2 heq2 ha2 hty
    | cons x l1' ih =>
        cases ticks with
        | nil =>
            rw [show runTrace st [] = [] from rfl] at heq
            exact absurd heq.symm (by simp)
        | cons tick rest =>
            rcases tick with ⟨t0, c0⟩
            rw [runTrace_cons] at heq
            simp only [List.cons_append, List.cons.injEq] at heq
            exact ih (tickAlertFlow t0 c0 st).2 rest heq.2 (List.pairwise_cons.mp hmono).2

/-- Witness for `cooldown_cross_tick_gap`: a `flare-m` alert passing at time
0 and another passing two hours later (cooldown 60 minutes) are at least one
hour apart. -/
theorem cooldown_cross_tick_gap_witness :
    (7200000 : ℤ) - 0 ≥ 60 * 60 * 1000 :=
  cooldown_cross_tick_gap.2.2 defaultState
    [ (0, [{ id := "flare-f1", type := "flare-m", urgency := AlertUrgency.high
           , title := "M1.0 Solar Flare", timestamp := 0, sourceEventId := some "f1" }])
    , (7200000, [{ id := "flare-f2", type := "flare-m", urgency := AlertUrgency.high
                 , title := "M2.0 Solar Flare", timestamp := 7200000
                 , sourceEventId := some "f2" }]) ]
    [] [] [] 0 7200000
    [{ id := "flare-f1", type := "flare-m", urgency := AlertUrgency.high
     , title := "M1.0 Solar Flare", timestamp := 0, sourceEventId := some "f1" }]
    [{ id := "flare-f2", type := "flare-m", urgency := AlertUrgency.high
     , title := "M2.0 Solar Flare", timestamp := 7200000, sourceEventId := some "f2" }]
    { id := "flare-f1", type := "flare-m", urgency := AlertUrgency.high
    , title := "M1.0 Solar Flare", timestamp := 0, sourceEventId := some "f1" }
    { id := "flare-f2", type := "flare-m", urgency := AlertUrgency.high
    , title := "M2.0 Solar Flare", timestamp := 7200000, sourceEventId := some "f2" }
    60 (by decide) (by decide) (by decide) (by decide) (by decide) (by decide)
    (by norm_num)

/-- C10: within a tick, the state update — stamping `lastCooldowns` and
appending to the `alertsSent` history — covers every candidate that passed
the cooldown filter and is the same whatever the quiet-hours configuration,
local hour, or delivery outcome; a non-critical alert suppressed by quiet
hours is therefore still recorded and still starts its type's cooldown. -/
theorem tick_records_despite_suppression (q : QuietHoursConfig) (hour : Int)
    (now : ℤ) (cands : List Alert) (st : CheckerState) :
    (tickDispatch q hour now cands st).2 = (tickAlertFlow now cands st).2 ∧
    (∀ a ∈ (tickAlertFlow now cands st).1,
      (tickAlertFlow now cands st).2.lastCooldowns.lookup a.type = some now ∧
      a ∈ (tickAlertFlow now cands st).2.alertsSent) ∧
    (∀ a ∈ (tickAlertFlow now cands st).1, a.urgency ≠ AlertUrgency.critical →
      isQuietHours q hour = true → dispatchAlert q hour a = none) := by
  refine ⟨rfl, ?_, ?_⟩
  · intro a ha
    constructor
    · rw [tickAlertFlow_lastCooldowns]
      exact lookup_fold_record_mem now _ _ _ (Or.inl (List.mem_map_of_mem Alert.type ha))
    · exact List.mem_append.mpr (Or.inr ha)
  · intro a _ hnc hq
    unfold dispatchAlert
    rw [if_pos ⟨hnc, hq⟩]

/-- Witness for `tick_records_despite_suppression`: a moderate alert passing
the filter at time 0 inside quiet hours (hour 23) still gets its cooldown
recorded and lands in the history. -/
theorem tick_records_despite_suppression_witness :
    (tickAlertFlow 0
      [{ id := "bz-cross-10-0", type := "bz-threshold", urgency := AlertUrgency.moderate
       , title := "Southward Bz", timestamp := 0, sourceEventId := none }]
      defaultState).2.lastCooldowns.lookup "bz-threshold" = some 0 ∧
    dispatchAlert quietHoursDefault 23
      { id := "bz-cross-10-0", type := "bz-threshold", urgency := AlertUrgency.moderate
      , title := "Southward Bz", timestamp := 0, sourceEventId := none } = none := by
  constructor
  · exact ((tick_records_despite_suppression quietHoursDefault 23 0
      [{ id := "bz-cross-10-0", type := "bz-threshold", urgency := AlertUrgency.moderate
       , title := "Southward Bz", timestamp := 0, sourceEventId := none }]
      defaultState).2.1
      { id := "bz-cross-10-0", type := "bz-threshold", urgency := AlertUrgency.moderate
      , title := "Southward Bz", timestamp := 0, sourceEventId := none }
      (by decide)).1
  · exact (tick_records_despite_suppression quietHoursDefault 23 0
      [{ id := "bz-cross-10-0", type := "bz-threshold", urgency := AlertUrgency.moderate
       , title := "Southward Bz", timestamp := 0, sourceEventId := none }]
      defaultState).2.2
      { id := "bz-cross-10-0", type := "bz-threshold", urgency := AlertUrgency.moderate
      , title := "Southward Bz", timestamp := 0, sourceEventId := none }
      (by decide) (by decide) (by decide)

end SpaceWeather
